import Mathlib

/-!
Verification of the contacts-management backend's authentication core and
contact-repository layer: a shallow embedding of `src/repository/contacts.py`,
`src/repository/users.py`, `src/services/auth.py` and `src/api/auth.py`,
with theorems about ownership scoping, token issuance/verification, the
login confirmation gate, the cache-first bearer resolution and the
birthday-window query.
-/

/-- User roles, from `src/database/models.UserRole` (referenced throughout
the source; the enum has members USER and ADMIN per the data model). -/
inductive UserRole where
  | USER
  | ADMIN
deriving DecidableEq

/-- A user record: id, username, email, hashed_password, role, confirmed,
avatar — the fields the source reads and writes on `User` rows. -/
structure UserRec where
  id : Nat
  username : String
  email : String
  hashed_password : String
  role : UserRole
  confirmed : Bool
  avatar : Option String
deriving DecidableEq

/-- A calendar date (proleptic Gregorian), used for contact birthdays and
for `datetime.today()` in the birthday query. -/
structure Date where
  year : Nat
  month : Nat
  day : Nat
deriving DecidableEq

/-- Gregorian leap-year rule, as used by Python's `datetime`. -/
def isLeap (y : Nat) : Bool :=
  (y % 4 == 0 && y % 100 != 0) || (y % 400 == 0)

/-- Number of days in a month of a given year. -/
def daysInMonth (y m : Nat) : Nat :=
  if m == 2 then (if isLeap y then 29 else 28)
  else if m == 4 || m == 6 || m == 9 || m == 11 then 30
  else 31

/-- The day after a given date. -/
def nextDay (d : Date) : Date :=
  if d.day < daysInMonth d.year d.month then ⟨d.year, d.month, d.day + 1⟩
  else if d.month < 12 then ⟨d.year, d.month + 1, 1⟩
  else ⟨d.year + 1, 1, 1⟩

/-- `d + timedelta(days := n)` on dates. -/
def addDays (d : Date) : Nat → Date
  | 0 => d
  | n + 1 => nextDay (addDays d n)

/-- A contact row: id, owning user_id, and the payload fields of the
`Contact` model used by `src/repository/contacts.py`. -/
structure Contact where
  id : Nat
  user_id : Nat
  first_name : String
  last_name : String
  email : String
  phone : String
  birthday : Date
  extra_info : String
deriving DecidableEq

/-- `ContactRepository.get_contact`: `SELECT ... WHERE Contact.id == contact_id
AND Contact.user_id == user.id`, one row or none.  The contacts table is the
list `db`. -/
def get_contact (db : List Contact) (contact_id : Nat) (user : UserRec) : Option Contact :=
  db.find? (fun c => c.id == contact_id && c.user_id == user.id)

/-- A JWT as the bearer-token layer observes it: either malformed (fails
structural parsing / signature decoding entirely), or a signed claims set.
`jose.jwt.encode` signs with a secret; we record the signing secret, and
decoding checks it against the verifying secret. -/
inductive Token where
  | malformed
  | signed (sub : Option (Option String)) (exp : Nat) (secret : String)
deriving DecidableEq

/-- Failure modes of `jose.jwt.decode`; both are subclasses of `JWTError`. -/
inductive JwtError where
  | invalid
  | expired
deriving DecidableEq

/-- The claims a decoded payload carries: `sub` is `none` when the claim is
absent from the payload, `some none` when it is present with JSON null,
`some (some s)` when it is a string; `exp` is the expiry timestamp
(seconds). -/
structure JwtPayload where
  sub : Option (Option String)
  exp : Nat
deriving DecidableEq

/-- `jose.jwt.decode(token, secret, algorithms=[...])` at time `now`:
raises `JWTError` when the token is malformed or the signature does not
verify, raises `ExpiredSignatureError` (a `JWTError`) when the `exp` claim
is in the past (`exp < now`, zero leeway), otherwise returns the claims. -/
def jwtDecode (t : Token) (secret : String) (now : Nat) : Except JwtError JwtPayload :=
  match t with
  | .malformed => .error .invalid
  | .signed sub exp sig =>
    if sig ≠ secret then .error .invalid
    else if exp < now then .error .expired
    else .ok ⟨sub, exp⟩

/-- `create_reset_token(email)` in `src/services/auth.py`: payload
`{"sub": email, "exp": utcnow + 1 hour}` signed with the configured
secret. -/
def create_reset_token (email : String) (now : Nat) (secret : String) : Token :=
  Token.signed (some (some email)) (now + 3600) secret

/-- `decode_reset_token(token)` in `src/services/auth.py`: `jwt.decode`
then `payload.get("sub")` (which yields `none` if the claim is absent or
null).  A `JWTError` from `jwt.decode` propagates to the caller. -/
def decode_reset_token (t : Token) (secret : String) (now : Nat) :
    Except JwtError (Option String) :=
  (jwtDecode t secret now).map (fun p => p.sub.join)

/-- `create_access_token(data={"sub": username})` in `src/services/auth.py`:
expiry `now + config.JWT_EXPIRATION_SECONDS` (`expSec`), signed with the
configured secret. -/
def create_access_token (username : String) (now expSec : Nat) (secret : String) : Token :=
  Token.signed (some (some username)) (now + expSec) secret

/-- How `get_current_user`'s token-validation prologue can fail:
`unauthorized` is the HTTP 401 `credentials_exception`; `keyError` is an
uncaught Python `KeyError` (escapes the `except JWTError` handler). -/
inductive AuthError where
  | unauthorized
  | keyError
deriving DecidableEq

/-- The token-validation prologue of `get_current_user` in
`src/services/auth.py`: `jwt.decode` failures (`except JWTError`) become
the 401 `credentials_exception`; then `payload["sub"]` raises `KeyError`
when the claim is absent (not caught by `except JWTError`); an explicit
`"sub": null` hits the `if username is None` branch and raises the 401. -/
def resolveBearerSubject (t : Token) (secret : String) (now : Nat) :
    Except AuthError String :=
  match jwtDecode t secret now with
  | .error _ => .error .unauthorized
  | .ok p =>
    match p.sub with
    | none => .error .keyError
    | some none => .error .unauthorized
    | some (some u) => .ok u

/-- `login_user` in `src/api/auth.py`: look up the user by username; 401 if
absent or `Hash().verify_password` fails; 401 (distinct message) if the
user is not confirmed; otherwise issue an access token with
`sub = user.username`.  Password verification is the opaque external hash
capability, passed as `verify`. -/
def login_user (users : List UserRec) (verify : String → String → Bool)
    (username password : String) (now expSec : Nat) (secret : String) :
    Except AuthError Token :=
  match users.find? (fun u => u.username == username) with
  | none => .error .unauthorized
  | some user =>
    if ¬ verify password user.hashed_password then .error .unauthorized
    else if ¬ user.confirmed then .error .unauthorized
    else .ok (create_access_token user.username now expSec secret)

/-- Result of `redis_client.get(key)` as `get_current_user` observes it:
a live cached serialized user, a miss, or a `RedisError` (backend
unavailable). -/
inductive CacheGet where
  | found (u : UserRec)
  | miss
  | unavail

/-- Outcome of `get_current_user`: the returned user (or the raised
error) and the cache write the best-effort refill performed (`none` when
no refill happened, including when `redis_client.set` raised). -/
structure ResolveOutcome where
  result : Except AuthError UserRec
  cacheWrite : Option (String × UserRec)

/-- `get_current_user` in `src/services/auth.py`: validate the bearer and
extract the subject; try the cache under key `"user:" ++ username`
(a `RedisError` is swallowed and treated like a miss); on a cache hit
return the deserialized record immediately; otherwise look the username up
in the directory, 401 if absent, else best-effort refill the cache
(`RedisError` swallowed) and return the directory record.  `setOk` is
whether `redis_client.set` would succeed. -/
def get_current_user (t : Token) (secret : String) (now : Nat)
    (cache : String → CacheGet) (setOk : Bool) (users : List UserRec) :
    ResolveOutcome :=
  match resolveBearerSubject t secret now with
  | .error e => ⟨.error e, none⟩
  | .ok username =>
    match cache ("user:" ++ username) with
    | .found u => ⟨.ok u, none⟩
    | _ =>
      match users.find? (fun v => v.username == username) with
      | none => ⟨.error .unauthorized, none⟩
      | some u => ⟨.ok u, if setOk then some ("user:" ++ username, u) else none⟩

/-- The fields of a contact-creation payload.  Modelled from the spec:
`src/schemas.py` (the `ContactCreate` schema) is not in the sources; the
fields follow the spec's Contact data model (first_name, last_name, email,
phone, birthday, extra_info), with the id generated by storage and the
owner assigned from the authenticated user. -/
structure ContactCreate where
  first_name : String
  last_name : String
  email : String
  phone : String
  birthday : Date
  extra_info : String
deriving DecidableEq

/-- `ContactRepository.create_contact`: build the row with
`user_id = user.id`, add it, and commit; on `IntegrityError` roll back
(the storage engine discards the uncommitted insert, restoring the
pre-call table) and return `None`.  `commitOk` is whether the commit
satisfies the storage constraints; `nextId` is the id storage generates.
Returns the repository's return value and the table after the call. -/
def create_contact (db : List Contact) (data : ContactCreate) (user : UserRec)
    (nextId : Nat) (commitOk : Bool) : Option Contact × List Contact :=
  let newContact : Contact :=
    ⟨nextId, user.id, data.first_name, data.last_name, data.email,
      data.phone, data.birthday, data.extra_info⟩
  if commitOk then (some newContact, db ++ [newContact])
  else (none, db)

/-- The fields of a contact-update payload; a `none` field is unset
(excluded by `exclude_unset=True`).  Modelled from the spec:
`src/schemas.py` (the `ContactUpdate` schema) is not in the sources; the
mutable fields follow the spec's Contact data model. -/
structure ContactUpdate where
  first_name : Option String
  last_name : Option String
  email : Option String
  phone : Option String
  birthday : Option Date
  extra_info : Option String
deriving DecidableEq

/-- The `setattr` loop of `update_contact`: each field present in the
payload overwrites the stored value; unset fields are not touched. -/
def applyUpdate (c : Contact) (d : ContactUpdate) : Contact :=
  { c with
    first_name := d.first_name.getD c.first_name
    last_name := d.last_name.getD c.last_name
    email := d.email.getD c.email
    phone := d.phone.getD c.phone
    birthday := d.birthday.getD c.birthday
    extra_info := d.extra_info.getD c.extra_info }

/-- `ContactRepository.update_contact`: fetch via `get_contact` (owner
scoped); if absent return `None` with the table untouched; else apply the
payload's set fields and commit; on `IntegrityError` roll back (table
restored) and return `None`. -/
def update_contact (db : List Contact) (contact_id : Nat) (d : ContactUpdate)
    (user : UserRec) (commitOk : Bool) : Option Contact × List Contact :=
  match get_contact db contact_id user with
  | none => (none, db)
  | some c =>
    let c2 := applyUpdate c d
    if commitOk then
      (some c2, db.map (fun x => if x.id == c.id && x.user_id == c.user_id then c2 else x))
    else (none, db)

/-- Errors the user repository can surface: `notFound` is the spec's
handled absence error; `noneAttributeError` is Python's `AttributeError`
from dereferencing a `None` lookup result. -/
inductive RepoError where
  | notFound
  | noneAttributeError
deriving DecidableEq

/-- `UserRepository.confirmed_email`: `get_user_by_email`, then
`user.confirmed = True` and commit.  When no user matches,
`user` is `None` and the attribute assignment raises `AttributeError`
before any commit.  Returns the raised-or-ok outcome and the users table
after the call. -/
def confirmed_email (users : List UserRec) (email : String) :
    Except RepoError Unit × List UserRec :=
  match users.find? (fun u => u.email == email) with
  | none => (.error .noneAttributeError, users)
  | some _ =>
    (.ok (), users.map (fun u => if u.email == email then { u with confirmed := true } else u))

/-- The `or_/and_` filter of `get_contacts_birthday_soon` on a birthday's
month `bm` and day `bd`: month equals today's month and day is at least
today's day, or month equals (today + 7 days)'s month and day is at most
that day. -/
def birthdaySoonCond (today : Date) (bm bd : Nat) : Bool :=
  let sevenDaysLater := addDays today 7
  (bm == today.month && bd ≥ today.day) ||
  (bm == sevenDaysLater.month && bd ≤ sevenDaysLater.day)

/-- `ContactRepository.get_contacts_birthday_soon`: the user's contacts
whose birthday passes `birthdaySoonCond` for today's date. -/
def get_contacts_birthday_soon (db : List Contact) (user : UserRec) (today : Date) :
    List Contact :=
  db.filter (fun c =>
    c.user_id == user.id && birthdaySoonCond today c.birthday.month c.birthday.day)

/-- The spec's matching condition, written from its words: the birthday's
month/day, projected onto a yearless calendar, falls within
`[today, today + horizon]` — i.e. it equals the month/day of one of the
dates `today, today + 1, …, today + horizon`. -/
def inYearlessRange (today : Date) (horizon : Nat) (bm bd : Nat) : Bool :=
  (List.range (horizon + 1)).any (fun k =>
    (addDays today k).month == bm && (addDays today k).day == bd)

/-- C1: for every contact id and every pair of distinct users A and B, if
every contact with that id is owned by B, then `get_contact id A` returns
not-found, identical to the case where no contact with that id exists at
all. -/
theorem get_contact_wrong_owner_not_found
    (db : List Contact) (contact_id : Nat) (A B : UserRec)
    (hAB : A.id ≠ B.id)
    (hown : ∀ c ∈ db, c.id = contact_id → c.user_id = B.id) :
    get_contact db contact_id A = none ∧
    get_contact db contact_id A =
      get_contact (db.filter (fun c => c.id ≠ contact_id)) contact_id A := by
  have h1 : get_contact db contact_id A = none := by
    unfold get_contact
    rw [List.find?_eq_none]
    intro c hc hp
    simp only [Bool.and_eq_true, beq_iff_eq] at hp
    exact hAB (hp.2.symm.trans (hown c hc hp.1))
  have h2 : get_contact (db.filter (fun c => c.id ≠ contact_id)) contact_id A = none := by
    unfold get_contact
    rw [List.find?_eq_none]
    intro c hc hp
    simp only [Bool.and_eq_true, beq_iff_eq] at hp
    rw [List.mem_filter] at hc
    exact absurd hp.1 (by simpa using hc.2)
  exact ⟨h1, h1.trans h2.symm⟩

/-- Witness for C1 at a concrete store: the single contact with id 1 is
owned by user id 2, and user id 5 cannot see it. -/
theorem get_contact_wrong_owner_not_found_witness :
    get_contact [⟨1, 2, "n", "s", "e", "p", ⟨2000, 1, 2⟩, "x"⟩] 1
        ⟨5, "alice", "a@x", "h", UserRole.USER, true, none⟩ = none ∧
    get_contact [⟨1, 2, "n", "s", "e", "p", ⟨2000, 1, 2⟩, "x"⟩] 1
        ⟨5, "alice", "a@x", "h", UserRole.USER, true, none⟩ =
      get_contact
        (List.filter (fun c => c.id ≠ 1)
          [⟨1, 2, "n", "s", "e", "p", ⟨2000, 1, 2⟩, "x"⟩]) 1
        ⟨5, "alice", "a@x", "h", UserRole.USER, true, none⟩ :=
  get_contact_wrong_owner_not_found _ 1 _
    ⟨2, "bob", "b@x", "h", UserRole.USER, true, none⟩
    (by decide) (by decide)

/-- C2: decoding a reset token before its one-hour TTL elapses returns the
email it was issued for; decoding it after the TTL has elapsed fails with
the expired-token error (a `JWTError`, surfaced by callers as
invalid-or-expired). -/
theorem reset_token_roundtrip_and_expiry
    (email secret : String) (issuedAt t1 t2 : Nat)
    (h1 : t1 < issuedAt + 3600) (h2 : issuedAt + 3600 < t2) :
    decode_reset_token (create_reset_token email issuedAt secret) secret t1 =
      Except.ok (some email) ∧
    decode_reset_token (create_reset_token email issuedAt secret) secret t2 =
      Except.error JwtError.expired := by
  have hnot : ¬ (issuedAt + 3600 < t1) := by omega
  refine ⟨?_, ?_⟩ <;>
    simp [decode_reset_token, create_reset_token, jwtDecode, hnot, h2, Option.join,
      Except.map]

/-- Witness for C2: a token issued at time 0 decodes at time 10 and is
expired at time 4000. -/
theorem reset_token_roundtrip_and_expiry_witness :
    decode_reset_token (create_reset_token "a@b.c" 0 "s") "s" 10 =
      Except.ok (some "a@b.c") ∧
    decode_reset_token (create_reset_token "a@b.c" 0 "s") "s" 4000 =
      Except.error JwtError.expired :=
  reset_token_roundtrip_and_expiry "a@b.c" "s" 0 10 4000 (by omega) (by omega)

/-- C3: a well-signed, unexpired token whose payload lacks the `sub` claim
makes the bearer-resolution prologue raise a Python `KeyError` from
`payload["sub"]`, which the `except JWTError` handler does not catch — a
different error kind from the 401 Unauthorized that every other
validation failure produces. -/
theorem resolveBearerSubject_missing_sub_keyerror :
    resolveBearerSubject (Token.signed none 100 "secret") "secret" 0 =
      Except.error AuthError.keyError ∧
    AuthError.keyError ≠ AuthError.unauthorized ∧
    resolveBearerSubject Token.malformed "secret" 0 =
      Except.error AuthError.unauthorized ∧
    resolveBearerSubject (Token.signed (some (some "alice")) 100 "other") "secret" 0 =
      Except.error AuthError.unauthorized ∧
    resolveBearerSubject (Token.signed (some (some "alice")) 100 "secret") "secret" 200 =
      Except.error AuthError.unauthorized := by
  refine ⟨?_, by decide, rfl, ?_, ?_⟩ <;> simp [resolveBearerSubject, jwtDecode]

/-- C4: login for a user whose confirmed flag is false fails with
Unauthorized even when the password verifies, and login succeeds exactly
when the user exists, the password verifies, and the user is confirmed. -/
theorem login_user_confirmed_gate
    (users : List UserRec) (verify : String → String → Bool)
    (username password : String) (now expSec : Nat) (secret : String) :
    (∀ u, users.find? (fun v => v.username == username) = some u →
      u.confirmed = false →
      login_user users verify username password now expSec secret =
        Except.error AuthError.unauthorized) ∧
    ((∃ t, login_user users verify username password now expSec secret = Except.ok t) ↔
      ∃ u, users.find? (fun v => v.username == username) = some u ∧
        verify password u.hashed_password = true ∧ u.confirmed = true) := by
  constructor
  · intro u hu hc
    by_cases hv : verify password u.hashed_password
    · simp [login_user, hu, hv, hc]
    · simp [login_user, hu, hv]
  · constructor
    · rintro ⟨t, ht⟩
      cases hfind : users.find? (fun v => v.username == username) with
      | none => simp [login_user, hfind] at ht
      | some u =>
        by_cases hv : verify password u.hashed_password
        · by_cases hc : u.confirmed
          · exact ⟨u, rfl, hv, hc⟩
          · simp [login_user, hfind, hv, hc] at ht
        · simp [login_user, hfind, hv] at ht
    · rintro ⟨u, hfind, hv, hc⟩
      exact ⟨create_access_token u.username now expSec secret,
        by simp [login_user, hfind, hv, hc]⟩

/-- Witness for C4: a confirmed user logs in; the same user with
`confirmed := false` is rejected despite the correct password. -/
theorem login_user_confirmed_gate_witness :
    login_user [⟨1, "alice", "a@x", "pw", UserRole.USER, false, none⟩]
        (fun p h => p == h) "alice" "pw" 0 3600 "s" =
      Except.error AuthError.unauthorized :=
  (login_user_confirmed_gate [⟨1, "alice", "a@x", "pw", UserRole.USER, false, none⟩]
      (fun p h => p == h) "alice" "pw" 0 3600 "s").1
    ⟨1, "alice", "a@x", "pw", UserRole.USER, false, none⟩ (by decide) rfl

/-- C5: when the bearer token is valid and its subject exists in the
directory, a failing cache backend (a `RedisError` on the get, and any
outcome of the best-effort set) still yields the directory's user record;
the cache failure never propagates. -/
theorem get_current_user_cache_failure_falls_through
    (username secret : String) (tokenExp now : Nat) (cache : String → CacheGet)
    (setOk : Bool) (users : List UserRec) (u : UserRec)
    (hexp : ¬ tokenExp < now)
    (hcache : cache ("user:" ++ username) = CacheGet.unavail)
    (hfind : users.find? (fun v => v.username == username) = some u) :
    (get_current_user (Token.signed (some (some username)) tokenExp secret) secret now
        cache setOk users).result = Except.ok u := by
  simp [get_current_user, resolveBearerSubject, jwtDecode, hexp, hcache, hfind]

/-- Witness for C5: with an unavailable cache, a failing cache set, and the
subject present in the directory, resolution returns the directory
record. -/
theorem get_current_user_cache_failure_falls_through_witness :
    (get_current_user (Token.signed (some (some "alice")) 1000 "s") "s" 0
        (fun _ => CacheGet.unavail) false
        [⟨1, "alice", "a@x", "h", UserRole.USER, true, none⟩]).result =
      Except.ok ⟨1, "alice", "a@x", "h", UserRole.USER, true, none⟩ :=
  get_current_user_cache_failure_falls_through "alice" "s" 1000 0
    (fun _ => CacheGet.unavail) false
    [⟨1, "alice", "a@x", "h", UserRole.USER, true, none⟩]
    ⟨1, "alice", "a@x", "h", UserRole.USER, true, none⟩
    (by omega) rfl (by decide)

/-- C10: when the bearer token is valid and the cache holds a live entry
for its subject, resolution returns the deserialized cached record with
no cache refill, for every directory state — in particular for a
directory from which the subject has been removed. -/
theorem get_current_user_cache_hit_short_circuit
    (username secret : String) (tokenExp now : Nat) (cache : String → CacheGet)
    (setOk : Bool) (users : List UserRec) (u : UserRec)
    (hexp : ¬ tokenExp < now)
    (hcache : cache ("user:" ++ username) = CacheGet.found u) :
    (get_current_user (Token.signed (some (some username)) tokenExp secret) secret now
        cache setOk users).result = Except.ok u ∧
    (get_current_user (Token.signed (some (some username)) tokenExp secret) secret now
        cache setOk users).cacheWrite = none := by
  constructor <;>
    simp [get_current_user, resolveBearerSubject, jwtDecode, hexp, hcache]

/-- Witness for C10: the cached record is returned even though the
directory is empty (the subject no longer exists there). -/
theorem get_current_user_cache_hit_short_circuit_witness :
    (get_current_user (Token.signed (some (some "alice")) 1000 "s") "s" 0
        (fun _ => CacheGet.found ⟨1, "alice", "a@x", "h", UserRole.USER, true, none⟩)
        true []).result =
      Except.ok ⟨1, "alice", "a@x", "h", UserRole.USER, true, none⟩ ∧
    (get_current_user (Token.signed (some (some "alice")) 1000 "s") "s" 0
        (fun _ => CacheGet.found ⟨1, "alice", "a@x", "h", UserRole.USER, true, none⟩)
        true []).cacheWrite = none :=
  get_current_user_cache_hit_short_circuit "alice" "s" 1000 0
    (fun _ => CacheGet.found ⟨1, "alice", "a@x", "h", UserRole.USER, true, none⟩)
    true [] ⟨1, "alice", "a@x", "h", UserRole.USER, true, none⟩
    (by omega) rfl

/-- C6 counterexample: for today = 2024-03-10 the query returns a contact
whose birthday is 03-01, although 03-01 does not fall within
[today, today + 7] on the yearless calendar — the claimed "if and only if"
fails (when today and today + 7 share a month, the whole month matches). -/
theorem get_contacts_birthday_soon_counterexample :
    get_contacts_birthday_soon
        [⟨1, 1, "n", "s", "e", "p", ⟨2000, 3, 1⟩, "x"⟩]
        ⟨1, "u", "u@x", "h", UserRole.USER, true, none⟩ ⟨2024, 3, 10⟩ =
      [⟨1, 1, "n", "s", "e", "p", ⟨2000, 3, 1⟩, "x"⟩] ∧
    inYearlessRange ⟨2024, 3, 10⟩ 7 3 1 = false := by
  exact ⟨by decide, by decide⟩

/-- C6 amended: the query returns exactly the user's contacts whose
birthday month/day satisfies the source's two-disjunct condition (month
equals today's month with day ≥ today's day, or month equals
(today + 7)'s month with day ≤ that day); for the spec's wraparound
example — today = 2024-12-28 and birthday 01-02 — that condition holds
and agrees with the yearless-range condition. -/
theorem get_contacts_birthday_soon_amended
    (db : List Contact) (user : UserRec) (today : Date) (c : Contact) :
    (c ∈ get_contacts_birthday_soon db user today ↔
      c ∈ db ∧ c.user_id = user.id ∧
        birthdaySoonCond today c.birthday.month c.birthday.day = true) ∧
    (birthdaySoonCond ⟨2024, 12, 28⟩ 1 2 = true ∧
      inYearlessRange ⟨2024, 12, 28⟩ 7 1 2 = true) := by
  refine ⟨?_, by decide, by decide⟩
  simp [get_contacts_birthday_soon, List.mem_filter, and_assoc]

/-- C7: updating an existing contact with a payload overwrites exactly the
payload's set fields; every unset field, the id and the owning user_id
keep their prior values. -/
theorem update_contact_partial_frame
    (db : List Contact) (contact_id : Nat) (d : ContactUpdate) (user : UserRec)
    (c : Contact) (hget : get_contact db contact_id user = some c) :
    ∃ c2, (update_contact db contact_id d user true).1 = some c2 ∧
      c2.id = c.id ∧ c2.user_id = c.user_id ∧
      (∀ v, d.first_name = some v → c2.first_name = v) ∧
      (d.first_name = none → c2.first_name = c.first_name) ∧
      (∀ v, d.last_name = some v → c2.last_name = v) ∧
      (d.last_name = none → c2.last_name = c.last_name) ∧
      (∀ v, d.email = some v → c2.email = v) ∧
      (d.email = none → c2.email = c.email) ∧
      (∀ v, d.phone = some v → c2.phone = v) ∧
      (d.phone = none → c2.phone = c.phone) ∧
      (∀ v, d.birthday = some v → c2.birthday = v) ∧
      (d.birthday = none → c2.birthday = c.birthday) ∧
      (∀ v, d.extra_info = some v → c2.extra_info = v) ∧
      (d.extra_info = none → c2.extra_info = c.extra_info) := by
  refine ⟨applyUpdate c d, by simp [update_contact, hget], rfl, rfl, ?_, ?_, ?_, ?_, ?_, ?_,
    ?_, ?_, ?_, ?_, ?_, ?_⟩ <;>
    first
      | (intro v hv; simp [applyUpdate, hv])
      | (intro hv; simp [applyUpdate, hv])

/-- Witness for C7: updating only `first_name` on a stored contact leaves
the other fields at their prior values. -/
theorem update_contact_partial_frame_witness :
    ∃ c2, (update_contact [⟨1, 7, "a", "b", "c", "d", ⟨2000, 1, 2⟩, "e"⟩] 1
        ⟨some "X", none, none, none, none, none⟩
        ⟨7, "u", "u@x", "h", UserRole.USER, true, none⟩ true).1 = some c2 ∧
      c2.first_name = "X" ∧ c2.last_name = "b" ∧ c2.email = "c" ∧
      c2.phone = "d" ∧ c2.birthday = ⟨2000, 1, 2⟩ ∧ c2.extra_info = "e" ∧
      c2.user_id = 7 := by
  obtain ⟨c2, hres, hid, huid, hfn, _, _, hln, _, hem, _, hph, _, hbd, _, hei⟩ :=
    update_contact_partial_frame [⟨1, 7, "a", "b", "c", "d", ⟨2000, 1, 2⟩, "e"⟩] 1
      ⟨some "X", none, none, none, none, none⟩
      ⟨7, "u", "u@x", "h", UserRole.USER, true, none⟩
      ⟨1, 7, "a", "b", "c", "d", ⟨2000, 1, 2⟩, "e"⟩ rfl
  exact ⟨c2, hres, hfn "X" rfl, hln rfl, hem rfl, hph rfl, hbd rfl, hei rfl, huid⟩

/-- C8 counterexample: confirming an email with no matching user raises
the none-dereference `AttributeError` (from `user.confirmed = True` with
`user = None`), which is not the NotFound error kind the claim states. -/
theorem confirmed_email_absent_counterexample :
    (confirmed_email [] "x@y.z").1 = Except.error RepoError.noneAttributeError ∧
    (Except.error RepoError.noneAttributeError : Except RepoError Unit) ≠
      Except.error RepoError.notFound := by
  refine ⟨rfl, fun h => ?_⟩
  simp at h

/-- C8 amended: with no matching user, `confirmed_email` raises the
unhandled none-dereference error and leaves the users table unchanged;
with a matching user it succeeds, every row holding that email ends up
confirmed, and every other row is carried over unchanged. -/
theorem confirmed_email_amended (users : List UserRec) (email : String) :
    (users.find? (fun u => u.email == email) = none →
      confirmed_email users email = (Except.error RepoError.noneAttributeError, users)) ∧
    (∀ u, users.find? (fun u => u.email == email) = some u →
      (confirmed_email users email).1 = Except.ok () ∧
      ∀ v ∈ (confirmed_email users email).2,
        (v.email = email → v.confirmed = true) ∧ (v.email ≠ email → v ∈ users)) := by
  constructor
  · intro hfind
    simp [confirmed_email, hfind]
  · intro u hfind
    refine ⟨by simp [confirmed_email, hfind], ?_⟩
    intro v hv
    simp only [confirmed_email, hfind, List.mem_map] at hv
    obtain ⟨w, hw, hwv⟩ := hv
    by_cases hwe : w.email == email
    · rw [if_pos hwe] at hwv
      subst hwv
      exact ⟨fun _ => rfl, fun hne => absurd (by simpa using hwe) hne⟩
    · rw [if_neg hwe] at hwv
      subst hwv
      exact ⟨fun he => absurd he (by simpa using hwe), fun _ => hw⟩

/-- Witness for C8's amended claim: an absent email yields the raised
error with the table untouched; a present email gets confirmed. -/
theorem confirmed_email_amended_witness :
    confirmed_email [⟨1, "u", "u@x", "h", UserRole.USER, false, none⟩] "a@b" =
      (Except.error RepoError.noneAttributeError,
        [⟨1, "u", "u@x", "h", UserRole.USER, false, none⟩]) ∧
    (confirmed_email [⟨1, "u", "u@x", "h", UserRole.USER, false, none⟩] "u@x").1 =
      Except.ok () :=
  ⟨(confirmed_email_amended [⟨1, "u", "u@x", "h", UserRole.USER, false, none⟩] "a@b").1
      (by decide),
    ((confirmed_email_amended [⟨1, "u", "u@x", "h", UserRole.USER, false, none⟩] "u@x").2
      ⟨1, "u", "u@x", "h", UserRole.USER, false, none⟩ (by decide)).1⟩

/-- C9: when the storage constraints reject the insert (`IntegrityError`
on commit), `create_contact` returns the failure value and the rollback
leaves the contacts table exactly as it was before the call — no partial
or orphaned row; for contrast, a successful commit appends exactly the
one new row, owned by the calling user. -/
theorem create_contact_conflict_rolls_back
    (db : List Contact) (data : ContactCreate) (user : UserRec) (nextId : Nat) :
    create_contact db data user nextId false = (none, db) ∧
    create_contact db data user nextId true =
      (some ⟨nextId, user.id, data.first_name, data.last_name, data.email,
          data.phone, data.birthday, data.extra_info⟩,
        db ++ [⟨nextId, user.id, data.first_name, data.last_name, data.email,
          data.phone, data.birthday, data.extra_info⟩]) := by
  exact ⟨rfl, rfl⟩
